import Mathlib

/-!
Verification of the Humain lead-processing manager.

This file shallowly embeds the parts of the Python sources that the
verified properties are about:

* `Utils/rate_limiter.py` (`WhatsAppRateLimiter`),
* `Views/whatsapp_handler.py` (`WhatsAppHandler.send_message`),
* `Utils/db_utils.py` (`db_session`, together with the semantics of a
  `@contextmanager` generator driving it),
* `Models/models.py` (lead / conversation / meeting rows),
* `Views/telegram_bot.py` (the negotiation registry `pending_meetings`
  and the approval-surface callback handlers),
* `Main/lead_processor.py` (inbound response processing, the lead
  time-selection handler and the intent-driven status update).

Wall-clock time is embedded as minutes since an epoch (`Nat`).  External
collaborators (the calendar API, the NLU service, channel transports) are
inputs to the embedded functions: the calendar event creation result is an
`Option Nat` argument, parsed availability lists are arguments, and
outbound traffic is collected in an `Out` trace instead of being performed.
-/

/-! ### Character-level string helpers

The embeddings below need `split(":")`, `startswith`, `strip().lower()` and
`int(...)` on strings.  They are implemented structurally over the
character lists of `String` so that concrete runs reduce inside `decide`
and `rfl` proofs. -/

/-- Splitting a character list at every colon, mirroring Python
`str.split(":")` (so the empty string yields one empty field). -/
def splitCharsOnColon : List Char → List (List Char)
  | [] => [[]]
  | c :: cs =>
    let r := splitCharsOnColon cs
    if c = ':' then [] :: r
    else
      match r with
      | [] => [[c]]
      | h :: t => (c :: h) :: t

/-- Python `data.split(":")` on a `String`. -/
def splitColon (s : String) : List String :=
  (splitCharsOnColon s.data).map List.asString

/-- Whether `pat` is an initial segment of `s`, mirroring Python
`str.startswith`. -/
def charsBegin : List Char → List Char → Bool
  | [], _ => true
  | _ :: _, [] => false
  | p :: ps, c :: cs => p = c && charsBegin ps cs

/-- Python `data.startswith(pat)`. -/
def strBegins (pat s : String) : Bool :=
  charsBegin pat.data s.data

/-- The whitespace characters removed by Python `str.strip()`. -/
def isPySpace (c : Char) : Bool :=
  c = ' ' || c = '\t' || c = '\n' || c = '\r' || c = '\x0b' || c = '\x0c'

/-- Droping leading whitespace from a character list. -/
def dropSpaceLead : List Char → List Char
  | [] => []
  | c :: cs => if isPySpace c then dropSpaceLead cs else c :: cs

/-- Python `message.strip().lower()`, as used by
`LeadProcessor._handle_lead_time_selection`. -/
def strCleanLower (s : String) : String :=
  List.asString
    (((dropSpaceLead ((dropSpaceLead s.data.reverse).reverse)).map Char.toLower))

/-- Python `int(s)` restricted to plain digit strings; other shapes raise
in the source and are mapped to `none` here. -/
def strToNatD (s : String) : Option Nat :=
  if s.data ≠ [] && s.data.all Char.isDigit then
    some (s.data.foldl (fun acc c => acc * 10 + (c.toNat - 48)) 0)
  else none

/-! ## Rate limiter (`Utils/rate_limiter.py`)

`WhatsAppRateLimiter` keeps a persisted usage record with daily and hourly
counters, last-reset timestamps and a lifetime total.  Timestamps are
minutes since an epoch; `dateOf` is the calendar date (`datetime.date()`)
and `hourIndexOf` numbers wall-clock hours absolutely, so the wall-clock
hour has rolled over between `t₁ ≤ t₂` exactly when
`hourIndexOf t₁ < hourIndexOf t₂`. -/

def minutesPerDay : Nat := 1440

def minutesPerHour : Nat := 60

/-- Calendar date of a timestamp (`datetime.date()`), as a day index. -/
def dateOf (t : Nat) : Nat := t / minutesPerDay

/-- Absolute wall-clock hour index of a timestamp. -/
def hourIndexOf (t : Nat) : Nat := t / minutesPerHour

/-- The persisted usage record of `WhatsAppRateLimiter` (`usage_data`). -/
structure UsageData where
  dailyCount : Nat
  hourlyCount : Nat
  lastReset : Nat
  hourlyReset : Nat
  totalSent : Nat
deriving DecidableEq

/-- `WhatsAppRateLimiter._reset_counters_if_needed`: the daily counter is
cleared when the calendar date is strictly later than the date of
`last_reset`; the hourly counter is cleared when at least one hour has
elapsed since `hourly_reset` (`now >= hourly_reset + timedelta(hours=1)`). -/
def resetCountersIfNeeded (now : Nat) (u : UsageData) : UsageData :=
  let u1 :=
    if dateOf u.lastReset < dateOf now then
      { u with dailyCount := 0, lastReset := now }
    else u
  if u1.hourlyReset + minutesPerHour ≤ now then
    { u1 with hourlyCount := 0, hourlyReset := now }
  else u1

/-- `WhatsAppRateLimiter.can_send_message`: reset lazily, then compare the
counters with the configured limits.  Returns the updated persisted record
and the verdict. -/
def canSendMessage (dailyLimit hourlyLimit now : Nat) (u : UsageData) :
    UsageData × Bool :=
  let u1 := resetCountersIfNeeded now u
  if dailyLimit ≤ u1.dailyCount then (u1, false)
  else if hourlyLimit ≤ u1.hourlyCount then (u1, false)
  else (u1, true)

/-- `WhatsAppHandler.send_message`: the rate-limit check runs first and a
rejected send returns `false` before any network traffic; on an allowed
send the external API is called and its success is the result.  The
source contains no code path that increments `daily_count`,
`hourly_count` or `total_sent`.  Result: (persisted record, whether the
external API was called, returned success). -/
def sendMessage (dailyLimit hourlyLimit now : Nat) (u : UsageData)
    (apiOk : Bool) : UsageData × Bool × Bool :=
  let r := canSendMessage dailyLimit hourlyLimit now u
  if r.2 then (r.1, true, apiOk) else (r.1, false, false)

/-! ## Transactional scope (`Utils/db_utils.py`)

`db_session` is a `@contextlib.contextmanager` generator containing a
`for attempt in range(max_retries)` loop: each iteration opens a session,
`yield`s it, commits and breaks; a caught `OperationalError` whose text
contains "database is locked" sleeps and `continue`s when attempts remain,
and every other exception is re-raised after rollback.

A generator-based context manager may only yield once per `with` block:
`contextlib` raises `RuntimeError` ("generator didn't stop", or
"generator didn't stop after throw()") whenever the generator reaches a
second `yield` while the block is being exited.  The embedding therefore
separates the generator's own control flow (`genResume`) from the
`with`-statement protocol (`runDbSessionWith`). -/

/-- The exception classes distinguished by `db_session`. -/
inductive PyExc
  /-- `OperationalError` whose text contains "database is locked". -/
  | opErrorLocked
  /-- any other `OperationalError`. -/
  | opErrorOther
  /-- any exception outside `OperationalError`. -/
  | otherExc
deriving DecidableEq

/-- Outcome of the `with`-block body. -/
inductive BodyOutcome
  | ok
  | raises (e : PyExc)
deriving DecidableEq

/-- How the exited `with` block re-enters the generator: `next(gen)` after
a normal body, `gen.throw(e)` after a raising body. -/
inductive ResumeInput
  | next
  | throwExc (e : PyExc)
deriving DecidableEq

/-- What a resumed generator does: suspend at `yield` again, finish
normally, or raise. -/
inductive GenStep
  | yielded (attempt : Nat)
  | stopped
  | raised (e : PyExc)
deriving DecidableEq

/-- The exception handling of `db_session`'s loop body at a given attempt
index: a locked error `continue`s to the next iteration (reaching the next
`yield`) while attempts remain, otherwise re-raises; other exceptions are
re-raised after rollback. -/
def genHandleExc (maxRetries attempt : Nat) (e : PyExc) : GenStep :=
  match e with
  | .opErrorLocked =>
    if attempt < maxRetries - 1 then .yielded (attempt + 1) else .raised .opErrorLocked
  | .opErrorOther => .raised .opErrorOther
  | .otherExc => .raised .otherExc

/-- Resuming the `db_session` generator suspended at the `yield` of the
given attempt.  On `next` the statements after the `yield` run:
`session.commit()` (outcome `commitOutcome`) then `break`, so a clean
commit finishes the generator.  On `throw` the exception is raised at the
`yield` and handled by the loop's `except` clauses. -/
def genResume (maxRetries attempt : Nat) (inp : ResumeInput)
    (commitOutcome : Option PyExc) : GenStep :=
  match inp with
  | .next =>
    match commitOutcome with
    | none => .stopped
    | some e => genHandleExc maxRetries attempt e
  | .throwExc e => genHandleExc maxRetries attempt e

/-- Result of executing `with db_session() as s: body`. -/
inductive WithResult
  | completed
  /-- `contextlib` raised `RuntimeError` because the generator reached a
  second `yield` while the block was exiting. -/
  | raisedRuntimeError
  | raisedExc (e : PyExc)
deriving DecidableEq

/-- Executing `with db_session(maxRetries) as s: body` under the
`contextlib` protocol.  `__enter__` runs the generator to the first
`yield` (attempt 0); the body runs exactly once; `__exit__` resumes the
generator with `next` or `throw` and converts a renewed suspension into
`RuntimeError`. -/
def runDbSessionWith (maxRetries : Nat) (commitOutcome : Option PyExc)
    (body : BodyOutcome) : WithResult :=
  match body with
  | .ok =>
    match genResume maxRetries 0 .next commitOutcome with
    | .stopped => .completed
    | .yielded _ => .raisedRuntimeError
    | .raised e => .raisedExc e
  | .raises e =>
    match genResume maxRetries 0 (.throwExc e) commitOutcome with
    | .stopped => .completed
    | .yielded _ => .raisedRuntimeError
    | .raised e2 => .raisedExc e2

/-! ## Data model (`Models/models.py`) -/

/-- `LeadStatus` enum. -/
inductive LeadStatus
  | NEW | CONTACTED | RESPONDED | INTERESTED | MEETING_REQUESTED
  | MEETING_SCHEDULED | NOT_INTERESTED | FOLLOW_UP
deriving DecidableEq

/-- `CommunicationChannel` enum. -/
inductive Channel
  | email | whatsapp | linkedin
deriving DecidableEq

/-- A `leads` row.  `notes` is set by `process_meeting_decline` even though
the table has no such column; SQLAlchemy keeps it as a transient attribute,
so it is a plain field here. -/
structure LeadRow where
  id : Nat
  firstName : String := ""
  email : Option String := none
  emailVerified : Bool := false
  phoneNumber : Option String := none
  status : LeadStatus := .NEW
  lastContactDate : Option Nat := none
  nextFollowUpDate : Option Nat := none
  conversationSummary : String := ""
  notes : String := ""
deriving DecidableEq

/-- A `conversations` row. -/
structure ConvRow where
  leadId : Nat
  channel : Channel
  direction : String
  content : String
  timestamp : Nat
deriving DecidableEq

/-- A `meetings` row.  Statuses are the strings the sources write
("tentative", "confirmed", "cancelled"). -/
structure MeetingRow where
  id : Nat := 0
  leadId : Nat
  scheduledTime : Nat
  durationMinutes : Nat := 30
  calendarEventId : Option Nat := none
  status : String
  notes : String := ""
  createdAt : Nat
deriving DecidableEq

/-- The persistent store. `nextMeetingId` models primary-key assignment on
insert. -/
structure DB where
  leads : List LeadRow := []
  meetings : List MeetingRow := []
  convs : List ConvRow := []
  nextMeetingId : Nat := 1
deriving DecidableEq

/-- `db.query(Lead).get(lead_id)`. -/
def findLead (db : DB) (i : Nat) : Option LeadRow :=
  db.leads.find? (fun l => l.id = i)

/-- Writing back a mutated lead row (ORM identity map plus commit): every
row with the same primary key takes the new value. -/
def setLead (db : DB) (l : LeadRow) : DB :=
  { db with leads := db.leads.map (fun x => if x.id = l.id then l else x) }

/-- `db.merge(lead)`: replace the row with this primary key, or insert the
instance when the key is absent. -/
def mergeLead (db : DB) (l : LeadRow) : DB :=
  match findLead db l.id with
  | some _ => setLead db l
  | none => { db with leads := db.leads ++ [l] }

/-- Latest element of a meeting list by `created_at` (the first row of
`order_by(Meeting.created_at.desc())`). -/
def latestOf : List MeetingRow → Option MeetingRow
  | [] => none
  | m :: t =>
    match latestOf t with
    | none => some m
    | some b => if b.createdAt > m.createdAt then some b else some m

/-- `db.query(Meeting).filter_by(lead_id=..).order_by(created_at.desc()).first()`. -/
def latestMeetingFor (db : DB) (leadId : Nat) : Option MeetingRow :=
  latestOf (db.meetings.filter (fun m => m.leadId = leadId))

/-- `db.add(meeting)` for a fresh row, with primary-key assignment and
`created_at` defaulting to the current time. -/
def insertMeeting (db : DB) (now : Nat) (m : MeetingRow) : DB :=
  { db with
    meetings := db.meetings ++ [{ m with id := db.nextMeetingId, createdAt := now }]
    nextMeetingId := db.nextMeetingId + 1 }

/-- Committing a mutation of an existing meeting row (matched by primary
key). -/
def updateMeeting (db : DB) (m : MeetingRow) : DB :=
  { db with meetings := db.meetings.map (fun x => if x.id = m.id then m else x) }

/-- `db.add(conversation)`. -/
def addConv (db : DB) (c : ConvRow) : DB :=
  { db with convs := db.convs ++ [c] }

/-- Latest conversation row of a list by `timestamp`. -/
def latestConvOf : List ConvRow → Option ConvRow
  | [] => none
  | c :: t =>
    match latestConvOf t with
    | none => some c
    | some b => if b.timestamp > c.timestamp then some b else some c

/-- The lead's most recent inbound conversation row
(`filter_by(direction='inbound').order_by(timestamp.desc()).first()`). -/
def lastInboundConv (db : DB) (leadId : Nat) : Option ConvRow :=
  latestConvOf (db.convs.filter
    (fun c => c.leadId = leadId && c.direction = "inbound"))

/-- Number of meeting rows of a lead whose status is `tentative` or
`confirmed` (the "active" meetings of the at-most-one invariant). -/
def activeMeetingCount (db : DB) (leadId : Nat) : Nat :=
  (db.meetings.filter (fun m =>
    m.leadId = leadId && (m.status = "tentative" || m.status = "confirmed"))).length

/-! ## Negotiation registry (`Views/telegram_bot.py`, `pending_meetings`)

`pending_meetings` is an insertion-ordered dict from meeting id to a dict
of negotiation data whose optional keys default as below (`dict.get`). -/

/-- A parsed availability slot from the NLU collaborator
(`parse_availability_slots`): display fields plus the optional
`parsed_datetime`. -/
structure AvailSlot where
  day : String := ""
  time : String := ""
  parsedDatetime : Option Nat := none
deriving DecidableEq

/-- A calendar-matched slot (`find_matching_slots` output): a display
string and the concrete `proposed_time`. -/
structure MatchSlot where
  display : String := ""
  proposedTime : Nat
deriving DecidableEq

/-- An alternative slot (`suggest_alternative_times` output): a display
string and the concrete `time`. -/
structure AltSlot where
  display : String := ""
  time : Nat
deriving DecidableEq

/-- One `pending_meetings` entry. -/
structure PendingMeeting where
  leadId : Nat
  leadAvailability : List AvailSlot := []
  matchingSlots : List MatchSlot := []
  alternativeSlots : List AltSlot := []
  suggestedParsedTimes : List Nat := []
  awaitingManualInput : Bool := false
  awaitingLeadSelection : Bool := false
  processing : Bool := false
  requestedAt : Nat := 0
  manualInputRequestedAt : Nat := 0
deriving DecidableEq

/-- The registry: an insertion-ordered association list, like a Python
dict. -/
abbrev Registry := List (String × PendingMeeting)

/-- Dict lookup `pending_meetings.get(meeting_id)`. -/
def regLookup (r : Registry) (k : String) : Option PendingMeeting :=
  (r.find? (fun p => p.1 = k)).map Prod.snd

/-- Dict write `pending_meetings[meeting_id] = data`: replaces in place,
appends when the key is new. -/
def regSet (r : Registry) (k : String) (v : PendingMeeting) : Registry :=
  if (r.find? (fun p => p.1 = k)).isSome then
    r.map (fun p => if p.1 = k then (k, v) else p)
  else r ++ [(k, v)]

/-- Dict delete `del pending_meetings[meeting_id]`. -/
def regErase (r : Registry) (k : String) : Registry :=
  r.filter (fun p => p.1 ≠ k)

/-- Observable effects of a handler run: messages to the manager group, to
the callback query, to leads, and calendar API calls. -/
inductive Out
  | managerMsg (text : String)
  | editMessage (text : String)
  | callbackAlert (text : String)
  | callbackAck (text : String)
  | leadMsg (leadId : Nat) (channel : Channel) (text : String)
  | calCreate (time : Nat)
  | calDelete (eventId : Nat)
  | raisedError (text : String)
deriving DecidableEq

/-- Result of one approval-surface action. -/
structure ActionResult where
  reg : Registry
  db : DB
  out : List Out
deriving DecidableEq

/-! ## Approval-surface handlers (`Views/telegram_bot.py`)

The handlers are embedded as pure functions from the registry and store to
an `ActionResult`.  The calendar API is an input: `calRes` is the event id
`CalendarHandler.create_meeting` returns (`none` on any failure — the
source catches all exceptions there and returns `None`).  Channel sends to
leads are modelled as succeeding.  Notable source facts preserved here:
`TelegramBot` never sets a `whatsapp_handler`/`email_handler` attribute, so
the `hasattr` guards in `process_meeting_decline` and
`send_alternative_time_to_lead` are false and those sends are skipped. -/

/-- Text of `query.edit_message_text` for an unknown negotiation id. -/
def alreadyProcessedText : String := "This meeting has already been processed."

/-- Text of the alert shown when the `processing` flag is set. -/
def beingProcessedText : String := "This request is already being processed..."

/-- Text sent when `pending_meetings.get(meeting_id)` is `None` inside an
action handler. -/
def expiredText : String := "Meeting data expired. Please start over."

/-- Text sent for an out-of-range slot index. -/
def invalidSlotText : String := "Invalid time slot selected."

/-- Text sent when calendar event creation returns `None`. -/
def calendarFailText : String := "Failed to create calendar event. Please try manually."

/-- Confirmation text sent to the lead once a meeting is booked. -/
def meetingConfirmedText : String := "Meeting confirmed. You will get a calendar invite shortly."

/-- `TelegramBot.send_confirmation_to_lead`: look up the lead's most
recent inbound conversation; only when it was on WhatsApp, send the
confirmation there and record the outbound turn. -/
def sendConfirmationToLead (now : Nat) (lead : LeadRow) (db : DB) :
    DB × List Out :=
  match lastInboundConv db lead.id with
  | some c =>
    if c.channel = .whatsapp then
      (addConv db
        { leadId := lead.id, channel := .whatsapp, direction := "outbound"
          content := meetingConfirmedText, timestamp := now },
       [.leadMsg lead.id .whatsapp meetingConfirmedText])
    else (db, [])
  | none => (db, [])

/-- `TelegramBot.process_time_approval`: guard on the registry entry and
the slot index; delete the previous calendar event of the lead's latest
meeting if any; create the new event; on success update the existing
meeting row in place (or insert one), set the lead to
`MEETING_SCHEDULED`, confirm to the lead and notify the managers; on
failure report the error.  The trailing cleanup deletes the registry entry
on the success, calendar-failure and exception paths alike; the early
`return`s (missing entry, bad index, missing lead) skip it. -/
def processTimeApproval (now : Nat) (calRes : Option Nat) (mid : String)
    (slotIndex : Nat) (reg : Registry) (db : DB) : ActionResult :=
  match regLookup reg mid with
  | none => ⟨reg, db, [.managerMsg expiredText]⟩
  | some md =>
    if h : slotIndex < md.matchingSlots.length then
      let slot := md.matchingSlots.get ⟨slotIndex, h⟩
      match findLead db md.leadId with
      | none => ⟨reg, db, [.managerMsg "Lead not found."]⟩
      | some lead =>
        let existing := latestMeetingFor db md.leadId
        let delOut : List Out :=
          match existing with
          | some em =>
            match em.calendarEventId with
            | some eid => [.calDelete eid]
            | none => []
          | none => []
        match calRes with
        | some eid =>
          let db1 :=
            match existing with
            | some em =>
              updateMeeting db
                { em with scheduledTime := slot.proposedTime
                          calendarEventId := some eid
                          status := "confirmed"
                          notes := "Updated via manager approval" }
            | none =>
              insertMeeting db now
                { leadId := lead.id, scheduledTime := slot.proposedTime
                  durationMinutes := 30, calendarEventId := some eid
                  status := "confirmed", createdAt := now }
          let db2 := setLead db1 { lead with status := .MEETING_SCHEDULED }
          let conf := sendConfirmationToLead now { lead with status := .MEETING_SCHEDULED } db2
          ⟨regErase reg mid, conf.1,
            delOut ++ [.calCreate slot.proposedTime] ++ conf.2 ++
              [.managerMsg "Meeting confirmed with the lead."]⟩
        | none =>
          ⟨regErase reg mid, db,
            delOut ++ [.calCreate slot.proposedTime] ++ [.managerMsg calendarFailText]⟩
    else ⟨reg, db, [.managerMsg invalidSlotText]⟩

/-- `TelegramBot.request_manager_time_input`: mark the entry as awaiting
manual input (keeping every other field, including `processing`) and ask
the managers for times. -/
def requestManagerTimeInput (now : Nat) (mid : String) (reg : Registry)
    (db : DB) : ActionResult :=
  match regLookup reg mid with
  | none => ⟨reg, db, [.managerMsg expiredText]⟩
  | some md =>
    ⟨regSet reg mid
      { md with awaitingManualInput := true, manualInputRequestedAt := now },
     db, [.managerMsg "Manual time input required."]⟩

/-- Deduplication of alternative slots by timestamp, keeping first
occurrences, as in `show_alternative_times`. -/
def dedupAltByTime (slots : List AltSlot) : List AltSlot :=
  (slots.foldl
    (fun acc s => if (acc.2.contains s.time) then acc else (acc.1 ++ [s], s.time :: acc.2))
    (([] : List AltSlot), ([] : List Nat))).1

/-- `TelegramBot.show_alternative_times`: collect calendar suggestions
around the first two availability slots that carry a `parsed_datetime`,
deduplicate by time, cap at 5; on a nonempty result store them on the
entry and present them; otherwise fall through to
`request_manager_time_input`.  The `processing` flag is left as it was on
entry to this handler. -/
def showAlternativeTimes (now : Nat) (suggestAlt : Nat → List AltSlot)
    (mid : String) (reg : Registry) (db : DB) : ActionResult :=
  match regLookup reg mid with
  | none => ⟨reg, db, [.managerMsg expiredText]⟩
  | some md =>
    let cands := (md.leadAvailability.take 2).foldl
      (fun acc s =>
        match s.parsedDatetime with
        | some t => acc ++ suggestAlt t
        | none => acc) []
    let uniq := (dedupAltByTime cands).take 5
    if uniq.isEmpty then
      requestManagerTimeInput now mid reg db
    else
      ⟨regSet reg mid { md with alternativeSlots := uniq }, db,
       [.managerMsg "Alternative time suggestions."]⟩

/-- `TelegramBot.process_meeting_decline`: set the lead to
`NOT_INTERESTED`, record the outbound decline turn on the channel of the
last inbound message (the actual send is skipped because `TelegramBot`
has no channel handler attributes), notify the managers, and delete the
entry — the trailing guarded `del` runs on the success and exception
paths alike. -/
def processMeetingDecline (now : Nat) (mid : String) (reg : Registry)
    (db : DB) : ActionResult :=
  match regLookup reg mid with
  | none => ⟨reg, db, [.managerMsg "Meeting data expired."]⟩
  | some md =>
    match findLead db md.leadId with
    | none => ⟨regErase reg mid, db, [.managerMsg "Error declining meeting."]⟩
    | some lead =>
      let db1 := setLead db
        { lead with status := .NOT_INTERESTED, notes := "Meeting declined by manager" }
      let db2 :=
        match lastInboundConv db1 lead.id with
        | some c =>
          addConv db1
            { leadId := lead.id, channel := c.channel, direction := "outbound"
              content := "Polite decline message", timestamp := now }
        | none => db1
      ⟨regErase reg mid, db2, [.managerMsg "Meeting declined and polite response sent."]⟩

/-- `TelegramBot.handle_alternative_selection`: guard on the entry and the
index into `alternative_slots`; create the calendar event; on success
always insert a fresh confirmed meeting row (the source performs no
existing-meeting lookup here), set the lead to `MEETING_SCHEDULED` and
notify the managers; the trailing `del` removes the entry on success and
failure paths alike (the early returns skip it). -/
def handleAlternativeSelection (now : Nat) (calRes : Option Nat)
    (mid : String) (slotIndex : Nat) (reg : Registry) (db : DB) : ActionResult :=
  match regLookup reg mid with
  | none => ⟨reg, db, [.managerMsg expiredText]⟩
  | some md =>
    if h : slotIndex < md.alternativeSlots.length then
      let slot := md.alternativeSlots.get ⟨slotIndex, h⟩
      match findLead db md.leadId with
      | none => ⟨regErase reg mid, db, [.managerMsg "Error scheduling alternative meeting."]⟩
      | some lead =>
        match calRes with
        | some eid =>
          let db1 := insertMeeting db now
            { leadId := lead.id, scheduledTime := slot.time
              durationMinutes := 30, calendarEventId := some eid
              status := "confirmed", createdAt := now }
          let db2 := setLead db1 { lead with status := .MEETING_SCHEDULED }
          ⟨regErase reg mid, db2,
           [.calCreate slot.time, .managerMsg "Alternative meeting time scheduled."]⟩
        | none =>
          ⟨regErase reg mid, db,
           [.calCreate slot.time, .managerMsg calendarFailText]⟩
    else ⟨reg, db, [.managerMsg invalidSlotText]⟩

/-- `TelegramBot.process_meeting_confirmation`: message-only action that
deletes the entry when present. -/
def processMeetingConfirmation (mid : String) (reg : Registry) (db : DB) :
    ActionResult :=
  match regLookup reg mid with
  | none => ⟨reg, db, [.managerMsg "Meeting data not found. Please try again."]⟩
  | some _ => ⟨regErase reg mid, db, [.managerMsg "Meeting times sent."]⟩

/-- `TelegramBot._extract_meeting_id`: the second `":"`-separated field,
or the empty string. -/
def extractMeetingId (data : String) : String :=
  match splitColon data with
  | _ :: id :: _ => id
  | _ => ""

/-- The `if/elif` dispatch chain of `TelegramBot.handle_callback`, run
after the registry guards.  `approve_time` and `select_alt` unpack the
data into exactly three fields and convert the index with `int(...)`; a
shape mismatch raises in the source and is recorded as a `raisedError`
effect here.  (`approve_time` re-checks membership and re-sets the
`processing` flag, as the source does redundantly.) -/
def dispatchCallback (now : Nat) (calRes : Option Nat)
    (suggestAlt : Nat → List AltSlot) (data : String) (reg : Registry)
    (db : DB) : ActionResult :=
  if strBegins "suggest_times:" data then
    ⟨reg, db, [.managerMsg "Select available time slots."]⟩
  else if strBegins "slot:" data then
    ⟨reg, db, [.callbackAck "Time slot selected!"]⟩
  else if strBegins "confirm_slots:" data then
    processMeetingConfirmation (extractMeetingId data) reg db
  else if strBegins "approve_time:" data then
    match splitColon data with
    | [_, mid, idxStr] =>
      (match strToNatD idxStr with
       | some idx =>
         (match regLookup reg mid with
          | none => ⟨reg, db, [.managerMsg alreadyProcessedText]⟩
          | some md2 =>
            processTimeApproval now calRes mid idx
              (regSet reg mid { md2 with processing := true }) db)
       | none => ⟨reg, db, [.raisedError "invalid literal for int"]⟩)
    | _ => ⟨reg, db, [.raisedError "unpacking mismatch"]⟩
  else if strBegins "suggest_alt:" data then
    showAlternativeTimes now suggestAlt (extractMeetingId data) reg db
  else if strBegins "select_alt:" data then
    match splitColon data with
    | [_, mid, idxStr] =>
      (match strToNatD idxStr with
       | some idx => handleAlternativeSelection now calRes mid idx reg db
       | none => ⟨reg, db, [.raisedError "invalid literal for int"]⟩)
    | _ => ⟨reg, db, [.raisedError "unpacking mismatch"]⟩
  else if strBegins "custom_time:" data then
    requestManagerTimeInput now (extractMeetingId data) reg db
  else if strBegins "manager_suggest:" data then
    requestManagerTimeInput now (extractMeetingId data) reg db
  else if strBegins "decline:" data then
    processMeetingDecline now (extractMeetingId data) reg db
  else ⟨reg, db, []⟩

/-- `TelegramBot.handle_callback`: when the extracted meeting id is
nonempty, answer "already processed" if it is absent from the registry,
answer the busy alert if its `processing` flag is set, and otherwise set
the flag before dispatching. -/
def handleCallback (now : Nat) (calRes : Option Nat)
    (suggestAlt : Nat → List AltSlot) (data : String) (reg : Registry)
    (db : DB) : ActionResult :=
  let mid0 := extractMeetingId data
  if mid0 = "" then
    dispatchCallback now calRes suggestAlt data reg db
  else
    match regLookup reg mid0 with
    | none => ⟨reg, db, [.editMessage alreadyProcessedText]⟩
    | some md =>
      if md.processing then ⟨reg, db, [.callbackAlert beingProcessedText]⟩
      else
        dispatchCallback now calRes suggestAlt data
          (regSet reg mid0 { md with processing := true }) db

/-! ## Lead processor (`Main/lead_processor.py`) -/

/-- The intent payload returned by `GPTHandler.analyze_message_intent`
(string-valued fields, compared against the literals the source uses). -/
structure Intent where
  sentiment : String := "neutral"
  requestingMeeting : String := "no"
  expressingInterest : String := "no"
  stage : String := "general"
  specifiedTime : String := "no"
  confirmingTime : String := "no"
deriving DecidableEq

/-- The status the priority chain of
`LeadProcessor._update_lead_status_from_intent` assigns. -/
def intentTargetStatus (i : Intent) : LeadStatus :=
  if i.sentiment = "negative" then .NOT_INTERESTED
  else if i.requestingMeeting = "yes" then .MEETING_REQUESTED
  else if i.expressingInterest = "yes" then .INTERESTED
  else .RESPONDED

/-- `LeadProcessor._update_lead_status_from_intent`, mirroring the source
branch for branch.  The current status of the lead is not consulted. -/
def updateLeadStatusFromIntent (lead : LeadRow) (i : Intent) : LeadRow :=
  if i.sentiment = "negative" then { lead with status := .NOT_INTERESTED }
  else if i.requestingMeeting = "yes" then { lead with status := .MEETING_REQUESTED }
  else if i.expressingInterest = "yes" then { lead with status := .INTERESTED }
  else { lead with status := .RESPONDED }

/-- `LeadProcessor._get_leads_for_followup`: leads whose
`next_follow_up_date` is due and whose status is `CONTACTED` or
`FOLLOW_UP` (a SQL `NULL` follow-up date never compares as due). -/
def leadsForFollowup (db : DB) (now : Nat) : List LeadRow :=
  db.leads.filter (fun l =>
    (match l.nextFollowUpDate with
     | some t => decide (t ≤ now)
     | none => false) &&
    (l.status = .CONTACTED || l.status = .FOLLOW_UP))

/-- `LeadProcessor._get_channel_handler` returns a handler object for
email and WhatsApp (assuming `WHATSAPP_ENABLED`, as in the deployed
configuration) and `None` for any other channel. -/
def hasChannelHandler (c : Channel) : Bool :=
  c ≠ Channel.linkedin

/-- The word lists of `_handle_lead_time_selection`. -/
def numberWords : List String := ["1", "2", "3", "one", "two", "three"]

/-- The confirmation family accepted by `_handle_lead_time_selection`. -/
def yesWords : List String :=
  ["yes", "yeah", "yep", "sure", "okay", "ok", "confirm", "confirmed"]

/-- The selection-index cascade of `_handle_lead_time_selection`, applied
to the already stripped and lowercased message. -/
def selectionIndexOf (messageClean : String) : Option Nat :=
  if numberWords.contains messageClean then
    (if messageClean = "1" || messageClean = "one" then some 0
     else if messageClean = "2" || messageClean = "two" then some 1
     else some 2)
  else if yesWords.contains messageClean then some 0
  else none

/-- Modelled from the spec: `TelegramBot._create_or_update_meeting` is
invoked by `LeadProcessor._handle_lead_time_selection` but is not defined
anywhere in the sources.  Per the spec (§4.3 Phase D), the lead-selection
booking must "create/confirm the meeting exactly as in the Approve-slot
path", so this definition mirrors the booking core of
`process_time_approval`: delete the previous calendar event of the lead's
latest meeting if any, create the event for the selected time, on success
update the existing meeting row in place (or insert a confirmed one) and
set the lead to `MEETING_SCHEDULED`; report `false` on calendar failure
without touching the store. -/
def createOrUpdateMeeting (now : Nat) (calRes : Option Nat) (lead : LeadRow)
    (mtime : Nat) (db : DB) : DB × List Out × Bool :=
  let existing := latestMeetingFor db lead.id
  let delOut : List Out :=
    match existing with
    | some em =>
      match em.calendarEventId with
      | some eid => [.calDelete eid]
      | none => []
    | none => []
  match calRes with
  | some eid =>
    let db1 :=
      match existing with
      | some em =>
        updateMeeting db
          { em with scheduledTime := mtime, calendarEventId := some eid
                    status := "confirmed" }
      | none =>
        insertMeeting db now
          { leadId := lead.id, scheduledTime := mtime, durationMinutes := 30
            calendarEventId := some eid, status := "confirmed", createdAt := now }
    let db2 := setLead db1 { lead with status := .MEETING_SCHEDULED }
    (db2, delOut ++ [.calCreate mtime], true)
  | none => (db, delOut ++ [.calCreate mtime], false)

/-- The registry scan of `_handle_lead_time_selection`: the first entry
whose `lead_id` matches and whose `awaiting_lead_selection` flag is set. -/
def findPendingSelection (reg : Registry) (leadId : Nat) :
    Option (String × PendingMeeting) :=
  reg.find? (fun p => p.2.leadId = leadId && p.2.awaitingLeadSelection)

/-- Confirmation text sent to the lead after a selection is booked. -/
def selectionConfirmText : String :=
  "Perfect! Meeting confirmed. You will get a calendar invite shortly."

/-- Manager notification after a lead selected an option. -/
def leadSelectedText : String := "Lead selected an option. Meeting confirmed."

/-- Error text when the booking fails during a lead selection. -/
def selectionIssueText : String :=
  "Sorry, there was an issue scheduling the meeting. Let me check and get back to you."

/-- `LeadProcessor._handle_lead_time_selection`: interpret the stripped,
lowercased message through the numeric/word/confirmation cascade; on a
recognized selection, find the first registry entry awaiting this lead's
selection; in-range indices book via the (spec-modelled)
`createOrUpdateMeeting`, send a confirmation plus the stored outbound turn
on the inbound channel when a handler exists, notify the managers and
delete the entry; a failed booking reports to the lead and keeps the
entry; an out-of-range index and an unrecognized message return `false`
with nothing changed.  Result: (handled, registry, store, effects). -/
def handleLeadTimeSelection (now : Nat) (calRes : Option Nat)
    (lead : LeadRow) (message : String) (channel : Channel) (reg : Registry)
    (db : DB) : Bool × Registry × DB × List Out :=
  match selectionIndexOf (strCleanLower message) with
  | none => (false, reg, db, [])
  | some idx =>
    match findPendingSelection reg lead.id with
    | none => (false, reg, db, [])
    | some (mid, md) =>
      if h : idx < md.suggestedParsedTimes.length then
        let t := md.suggestedParsedTimes.get ⟨idx, h⟩
        let book := createOrUpdateMeeting now calRes lead t db
        if book.2.2 then
          let db2 :=
            if hasChannelHandler channel then
              addConv book.1
                { leadId := lead.id, channel := channel, direction := "outbound"
                  content := selectionConfirmText, timestamp := now }
            else book.1
          let msgOut : List Out :=
            if hasChannelHandler channel then
              [.leadMsg lead.id channel selectionConfirmText]
            else []
          (true, regErase reg mid, db2,
           book.2.1 ++ msgOut ++ [.managerMsg leadSelectedText])
        else
          let msgOut : List Out :=
            if hasChannelHandler channel then
              [.leadMsg lead.id channel selectionIssueText]
            else []
          (true, reg, book.1, book.2.1 ++ msgOut)
      else (false, reg, db, [])

/-- The branch conditions of `LeadProcessor._handle_meeting_flow`. -/
inductive MeetingRoute
  | availability | askAvailability | timeConfirmation
deriving DecidableEq

/-- Which meeting sub-flow `_handle_meeting_flow` takes, if any:
a specified time in the scheduling stage, else a meeting request without
a specified time, else a time confirmation. -/
def meetingFlowRoute (i : Intent) : Option MeetingRoute :=
  if i.specifiedTime = "yes" && i.stage = "scheduling" then
    some .availability
  else if i.requestingMeeting = "yes" && ¬ i.specifiedTime = "yes" then
    some .askAvailability
  else if i.confirmingTime = "yes" then
    some .timeConfirmation
  else none

/-- `LeadProcessor._handle_time_confirmation`: confirm the lead's latest
meeting row when it exists and is not yet confirmed and move the lead to
`MEETING_SCHEDULED`; otherwise fall back to `INTERESTED` with a
check-my-calendar reply.  Both branches send and record an outbound turn
when the channel has a handler. -/
def handleTimeConfirmation (now : Nat) (lead : LeadRow) (channel : Channel)
    (db : DB) : DB × List Out :=
  let confirmed :=
    match latestMeetingFor db lead.id with
    | some em => if em.status ≠ "confirmed" then some em else none
    | none => none
  match confirmed with
  | some em =>
    let db1 := updateMeeting db { em with status := "confirmed" }
    let db2 := setLead db1 { lead with status := .MEETING_SCHEDULED }
    if hasChannelHandler channel then
      (addConv db2
        { leadId := lead.id, channel := channel, direction := "outbound"
          content := "Excellent! Meeting confirmed.", timestamp := now },
       [.leadMsg lead.id channel "Excellent! Meeting confirmed."])
    else (db2, [])
  | none =>
    let db1 := setLead db { lead with status := .INTERESTED }
    if hasChannelHandler channel then
      (addConv db1
        { leadId := lead.id, channel := channel, direction := "outbound"
          content := "Let me check my calendar and suggest times.", timestamp := now },
       [.leadMsg lead.id channel "Let me check my calendar and suggest times."])
    else (db1, [])

/-- `LeadProcessor._ask_for_availability`: set `MEETING_REQUESTED` and send
the generated availability request, recording the outbound turn. -/
def askForAvailability (now : Nat) (askText : String) (lead : LeadRow)
    (channel : Channel) (db : DB) : DB × List Out :=
  let db1 := setLead db { lead with status := .MEETING_REQUESTED }
  if hasChannelHandler channel then
    (addConv db1
      { leadId := lead.id, channel := channel, direction := "outbound"
        content := askText, timestamp := now },
     [.leadMsg lead.id channel askText])
  else (db1, [])

/-- `LeadProcessor._process_lead_availability`, with the NLU parse and the
calendar matching as inputs.  An empty parse asks for clarification
without storing a turn or changing status.  Otherwise the lead becomes
`MEETING_REQUESTED` and (per the overriding second definition of
`request_meeting_approval`, which neither raises nor cleans up) a registry
entry keyed `approve_<lead>_<now>` is always created, the managers are
messaged, and the acknowledgment is sent and recorded. -/
def processLeadAvailability (now : Nat) (parseSlots : List AvailSlot)
    (matching : List MatchSlot) (lead : LeadRow) (channel : Channel)
    (reg : Registry) (db : DB) : Registry × DB × List Out :=
  if parseSlots.isEmpty then
    (reg, db,
     if hasChannelHandler channel then
       [.leadMsg lead.id channel "Could you please provide 2-3 specific times?"]
     else [])
  else
    let db1 := setLead db { lead with status := .MEETING_REQUESTED }
    let mid := "approve_" ++ toString lead.id ++ "_" ++ toString now
    let reg1 := regSet reg mid
      { leadId := lead.id, leadAvailability := parseSlots
        matchingSlots := matching, requestedAt := now }
    let ackText := "Thanks! I am checking my calendar against your availability."
    if hasChannelHandler channel then
      (reg1,
       addConv db1
         { leadId := lead.id, channel := channel, direction := "outbound"
           content := ackText, timestamp := now },
       [.managerMsg "Meeting approval request.", .leadMsg lead.id channel ackText])
    else (reg1, db1, [.managerMsg "Meeting approval request."])

/-- Result of `process_lead_response`. -/
structure ProcResult where
  reg : Registry
  db : DB
  out : List Out
deriving DecidableEq

/-- `LeadProcessor.process_lead_response`: merge the lead, append the
inbound turn, and try the time-selection handler first — when it consumes
the message the method returns at once.  Otherwise route through
`_handle_meeting_flow` (whose NLU and calendar inputs are the
`parseSlots`/`matching`/`askText` arguments) and, when no meeting branch
fires, apply the intent-driven status update and send the generated reply
(which the source does not record as a turn).  Every non-selection path
finally updates the conversation summary and `last_contact_date`. -/
def processLeadResponse (now : Nat) (lead0 : LeadRow) (message : String)
    (channel : Channel) (i : Intent) (calRes : Option Nat)
    (parseSlots : List AvailSlot) (matching : List MatchSlot)
    (askText : String) (replyText : String) (summary : String)
    (reg : Registry) (db0 : DB) : ProcResult :=
  let db := mergeLead db0 lead0
  let lead := (findLead db lead0.id).getD lead0
  let db1 := addConv db
    { leadId := lead.id, channel := channel, direction := "inbound"
      content := message, timestamp := now }
  let sel := handleLeadTimeSelection now calRes lead message channel reg db1
  if sel.1 then
    ⟨sel.2.1, sel.2.2.1, sel.2.2.2⟩
  else
    let step :=
      match meetingFlowRoute i with
      | some .availability =>
        processLeadAvailability now parseSlots matching lead channel reg db1
      | some .askAvailability =>
        let r := askForAvailability now askText lead channel db1
        (reg, r.1, r.2)
      | some .timeConfirmation =>
        let r := handleTimeConfirmation now lead channel db1
        (reg, r.1, r.2)
      | none =>
        let lead1 := updateLeadStatusFromIntent lead i
        let d := setLead db1 lead1
        (reg, d,
         if hasChannelHandler channel then [Out.leadMsg lead.id channel replyText]
         else [])
    let leadF := (findLead step.2.1 lead.id).getD lead
    let dbF := setLead step.2.1
      { leadF with conversationSummary := summary, lastContactDate := some now }
    ⟨step.1, dbF, step.2.2⟩

/-- Written from the spec (§4.1), for comparison with the code: the listed
status edges `NEW → CONTACTED → \x7bRESPONDED, NOT_INTERESTED, INTERESTED,
MEETING_REQUESTED\x7d → MEETING_SCHEDULED`, with `FOLLOW_UP` reachable only
from `CONTACTED` or `FOLLOW_UP`. -/
def specAllowsEdge : LeadStatus → LeadStatus → Bool
  | .NEW, .CONTACTED => true
  | .CONTACTED, .RESPONDED => true
  | .CONTACTED, .NOT_INTERESTED => true
  | .CONTACTED, .INTERESTED => true
  | .CONTACTED, .MEETING_REQUESTED => true
  | .RESPONDED, .MEETING_SCHEDULED => true
  | .NOT_INTERESTED, .MEETING_SCHEDULED => true
  | .INTERESTED, .MEETING_SCHEDULED => true
  | .MEETING_REQUESTED, .MEETING_SCHEDULED => true
  | .CONTACTED, .FOLLOW_UP => true
  | .FOLLOW_UP, .FOLLOW_UP => true
  | _, _ => false

/-! ## Lemma kit -/

theorem meetings_setLead (db : DB) (l : LeadRow) :
    (setLead db l).meetings = db.meetings := rfl

theorem meetings_addConv (db : DB) (c : ConvRow) :
    (addConv db c).meetings = db.meetings := rfl

theorem meetings_mergeLead (db : DB) (l : LeadRow) :
    (mergeLead db l).meetings = db.meetings := by
  unfold mergeLead
  cases findLead db l.id <;> rfl

theorem nextMeetingId_setLead (db : DB) (l : LeadRow) :
    (setLead db l).nextMeetingId = db.nextMeetingId := rfl

theorem nextMeetingId_addConv (db : DB) (c : ConvRow) :
    (addConv db c).nextMeetingId = db.nextMeetingId := rfl

theorem nextMeetingId_mergeLead (db : DB) (l : LeadRow) :
    (mergeLead db l).nextMeetingId = db.nextMeetingId := by
  unfold mergeLead
  cases findLead db l.id <;> rfl

theorem leads_addConv (db : DB) (c : ConvRow) :
    (addConv db c).leads = db.leads := rfl

theorem latestMeetingFor_meetings (db db' : DB) (i : Nat)
    (h : db'.meetings = db.meetings) :
    latestMeetingFor db' i = latestMeetingFor db i := by
  unfold latestMeetingFor
  rw [h]

theorem regLookup_erase (r : Registry) (k : String) :
    regLookup (regErase r k) k = none := by
  simp only [regLookup, regErase, Option.map_eq_none', List.find?_eq_none,
    List.mem_filter]
  intro p hp
  simpa using hp.2

theorem find?_set_id (ls : List LeadRow) (i : Nat) (l' : LeadRow)
    (hid : l'.id = i) (h : (ls.find? (fun x => x.id = i)).isSome) :
    (ls.map (fun x => if x.id = i then l' else x)).find? (fun x => x.id = i) =
      some l' := by
  induction ls with
  | nil => simp [List.find?] at h
  | cons x t ih =>
    by_cases hx : x.id = i
    · simp [List.find?, hx, hid]
    · rw [List.find?_cons_of_neg _ (by simpa using hx)] at h
      simpa [List.find?, hx] using ih h

theorem findLead_setLead_self (db : DB) (i : Nat) (l' : LeadRow)
    (hid : l'.id = i) (h : (findLead db i).isSome) :
    findLead (setLead db l') i = some l' := by
  unfold findLead setLead at *
  rw [hid]
  exact find?_set_id db.leads i l' hid h

theorem findLead_mergeLead_self (db : DB) (l : LeadRow) :
    findLead (mergeLead db l) l.id = some l := by
  unfold mergeLead
  cases h : findLead db l.id with
  | some x =>
    exact findLead_setLead_self db l.id l rfl (by rw [h]; rfl)
  | none =>
    unfold findLead at *
    rw [List.find?_append, h]
    simp [List.find?]

theorem latestOf_cons_isSome (m : MeetingRow) (t : List MeetingRow) :
    (latestOf (m :: t)).isSome := by
  rw [latestOf]
  cases latestOf t
  · rfl
  · dsimp only
    split <;> rfl

theorem latestOf_eq_none {ms : List MeetingRow} (h : latestOf ms = none) :
    ms = [] := by
  cases ms with
  | nil => rfl
  | cons m t =>
    have hs := latestOf_cons_isSome m t
    rw [h] at hs
    simp at hs

theorem filter_and_empty (ms : List MeetingRow) (p q : MeetingRow → Bool)
    (h : ms.filter p = []) :
    ms.filter (fun m => p m && q m) = [] := by
  have h1 : ∀ a ∈ ms, p a = false := by simpa using h
  have h2 : ∀ a ∈ ms, (p a && q a) = false := fun a ha => by simp [h1 a ha]
  simpa using h2

/-! ## Shared concrete fixtures -/

/-- An empty store. -/
def emptyDb : DB := {}

/-- The lead most concrete runs use. -/
def leadSeven : LeadRow := { id := 7, status := .MEETING_REQUESTED }

/-- A store holding `leadSeven` together with one active (tentative)
meeting for it. -/
def dbSeven : DB :=
  { leads := [leadSeven]
    meetings := [{ id := 1, leadId := 7, scheduledTime := 500,
                   status := "tentative", createdAt := 10 }]
    nextMeetingId := 2 }

/-! ## Claim C1 -/

/-- The negotiation entry for the C1 run: lead 7, alternatives already
computed by a previous `suggest_alt` action. -/
def c1Reg : Registry :=
  [("m1", { leadId := 7, alternativeSlots := [{ display := "x", time := 600 }] })]

/-- C1: the claim says any sequence of negotiation actions leaves at most
one active (tentative or confirmed) meeting per lead, the logic updating
an existing row in place.  The alternative-time selection action
(`handle_alternative_selection`) inserts a fresh confirmed row without any
existing-meeting lookup: started from a store holding one active meeting
for lead 7, the `select_alt` callback with a succeeding calendar call
leaves two active meetings for that lead. -/
theorem c1_alternative_selection_inserts_duplicate_meeting :
    activeMeetingCount dbSeven 7 = 1 ∧
    activeMeetingCount
      (handleCallback 100 (some 99) (fun _ => []) "select_alt:m1:0" c1Reg dbSeven).db
      7 = 2 := by
  decide

/-! ## Claim C4 -/

/-- The negotiation entry for the C4 run: fresh (processing flag unset),
with one availability slot carrying a parsed timestamp. -/
def c4Reg : Registry :=
  [("m1", { leadId := 7,
            leadAvailability := [{ day := "mon", time := "2pm", parsedDatetime := some 3000 }] })]

/-- Calendar suggestions used in the C4 run. -/
def c4Suggest : Nat → List AltSlot := fun t => [{ display := "alt", time := t + 60 }]

/-- First step of the C4 run: the manager presses "suggest alternatives". -/
def c4Step1 : ActionResult :=
  handleCallback 100 none c4Suggest "suggest_alt:m1" c4Reg dbSeven

/-- Second step of the C4 run: the manager then presses the first offered
alternative. -/
def c4Step2 : ActionResult :=
  handleCallback 101 (some 99) c4Suggest "select_alt:m1:0" c4Step1.reg c4Step1.db

/-- C4: the claim says the `processing` flag is cleared on every exit path
of an action.  `handle_callback` sets the flag before dispatching, and the
successful `suggest_alt` path stores the alternatives while leaving the
flag set; the follow-up `select_alt` press the surface just offered is
answered with the busy alert and changes nothing, so the offered
alternative can never be booked. -/
theorem c4_processing_flag_not_cleared_blocks_select_alt :
    (regLookup c4Step1.reg "m1").map PendingMeeting.processing = some true ∧
    (regLookup c4Step1.reg "m1").map
      (fun m => m.alternativeSlots.length) = some 1 ∧
    c4Step2 = ⟨c4Step1.reg, c4Step1.db, [.callbackAlert beingProcessedText]⟩ ∧
    activeMeetingCount c4Step2.db 7 = 1 := by
  decide

/-! ## Claim C5 -/

/-- The persisted usage state of a fresh install (counters and resets at
zero). -/
def freshUsage : UsageData :=
  { dailyCount := 0, hourlyCount := 0, lastReset := 0, hourlyReset := 0, totalSent := 0 }

/-- A persisted usage state already at one hourly send. -/
def oneHourlyUsage : UsageData :=
  { dailyCount := 1, hourlyCount := 1, lastReset := 20, hourlyReset := 20, totalSent := 1 }

/-- C5: the claim says every successful send increments the daily counter,
the hourly counter and the lifetime total, so the (N+1)th send within the
hour is rejected.  No code path increments any counter: with the hourly
limit 1, two consecutive successful sends in the same hour are both
accepted and every counter still reads 0.  (The final conjunct shows the
part of the claim the source does satisfy: a send rejected by the limiter
returns before the external call, the middle component being "external
API called".) -/
theorem c5_counters_never_incremented :
    (sendMessage 1000 1 30 freshUsage true).2.2 = true ∧
    (sendMessage 1000 1 40 (sendMessage 1000 1 30 freshUsage true).1 true).2.2 = true ∧
    (sendMessage 1000 1 40 (sendMessage 1000 1 30 freshUsage true).1 true).1.dailyCount = 0 ∧
    (sendMessage 1000 1 40 (sendMessage 1000 1 30 freshUsage true).1 true).1.hourlyCount = 0 ∧
    (sendMessage 1000 1 40 (sendMessage 1000 1 30 freshUsage true).1 true).1.totalSent = 0 ∧
    (sendMessage 1000 1 50 oneHourlyUsage true).2.1 = false := by
  decide

/-! ## Claim C9 -/

/-- C9: the claim says a contention error makes `db_session` roll back and
retry, re-running the body up to 5 attempts with backoff.  Because the
retry loop lives inside a `@contextmanager` generator, the `continue`
reaches a second `yield` and `contextlib` raises `RuntimeError` instead —
for a locked error raised by the body and for one raised by the commit
alike.  The remaining conjuncts record the parts that hold: a clean body
commits and completes, and a non-contention exception propagates after
rollback without retry. -/
theorem c9_db_session_locked_retry_is_broken :
    runDbSessionWith 5 none (.raises .opErrorLocked) = .raisedRuntimeError ∧
    runDbSessionWith 5 (some .opErrorLocked) .ok = .raisedRuntimeError ∧
    runDbSessionWith 5 none .ok = .completed ∧
    runDbSessionWith 5 none (.raises .otherExc) = .raisedExc .otherExc ∧
    runDbSessionWith 5 none (.raises .opErrorOther) = .raisedExc .opErrorOther := by
  decide

/-! ## Claim C2 -/

/-- C2: any approval-surface callback whose extracted negotiation id is
nonempty but absent from the registry — in particular the second press of
a button whose first press already deleted the entry — produces exactly
the "already processed" notice and leaves the registry and the store
untouched; no other effect (and in particular no meeting) is produced.
The guard fires before the per-action dispatch, so this covers
`approve_time`, `suggest_alt`, `select_alt`, `decline`, `custom_time`,
`manager_suggest`, `confirm_slots` and every other colon-shaped action. -/
theorem c2_absent_negotiation_callback_is_noop (now : Nat) (calRes : Option Nat)
    (suggestAlt : Nat → List AltSlot) (data : String) (reg : Registry) (db : DB)
    (h1 : ¬ extractMeetingId data = "")
    (h2 : regLookup reg (extractMeetingId data) = none) :
    handleCallback now calRes suggestAlt data reg db =
      ⟨reg, db, [.editMessage alreadyProcessedText]⟩ := by
  unfold handleCallback
  simp only [if_neg h1, h2]

/-- Witness for C2: a repeated `approve_time` press on an empty registry. -/
theorem c2_witness :
    handleCallback 5 none (fun _ => []) "approve_time:m1:0" [] emptyDb =
      ⟨[], emptyDb, [.editMessage alreadyProcessedText]⟩ :=
  c2_absent_negotiation_callback_is_noop 5 none (fun _ => [])
    "approve_time:m1:0" [] emptyDb (by decide) (by decide)

/-! ## Claim C3 -/

/-- The negotiation entry for the C3 run: lead 7 with one matched slot. -/
def c3Reg : Registry :=
  [("m1", { leadId := 7, matchingSlots := [{ display := "slot", proposedTime := 700 }] })]

/-- The C3 run: the manager approves slot 0 and the calendar-event
creation fails (`create_meeting` returns `None`). -/
def c3Run : ActionResult :=
  handleCallback 100 none (fun _ => []) "approve_time:m1:0" c3Reg dbSeven

/-- Counterexample to C3: the claim says a calendar-creation failure in
the Approve-slot action leaves the negotiation present in the registry so
the approval can be retried.  In the run `c3Run` the negotiation is
present beforehand, the store is indeed unchanged and the error is
reported — but the trailing cleanup of `process_time_approval` deletes
the entry in this path too, so afterwards the id resolves to nothing and
a retry is answered with the already-processed notice. -/
theorem c3_counterexample_negotiation_deleted_on_calendar_failure :
    regLookup c3Reg "m1" ≠ none ∧
    c3Run.db = dbSeven ∧
    c3Run.out = [.calCreate 700, .managerMsg calendarFailText] ∧
    regLookup c3Run.reg "m1" = none := by
  decide

/-- C3 (amended): when the Approve-slot action finds its negotiation and a
valid slot index but calendar-event creation returns `None`, the lead and
all meeting rows are left unchanged and the error is reported to the
approver — but the negotiation is removed from the registry rather than
kept for a retry. -/
theorem c3_calendar_failure_amended (now : Nat) (mid : String) (idx : Nat)
    (reg : Registry) (db : DB) (md : PendingMeeting) (lead : LeadRow)
    (hmd : regLookup reg mid = some md)
    (hidx : idx < md.matchingSlots.length)
    (hlead : findLead db md.leadId = some lead) :
    (processTimeApproval now none mid idx reg db).db = db ∧
    Out.managerMsg calendarFailText ∈ (processTimeApproval now none mid idx reg db).out ∧
    regLookup (processTimeApproval now none mid idx reg db).reg mid = none := by
  unfold processTimeApproval
  rw [hmd]
  simp only [hidx, dif_pos, hlead]
  refine ⟨by simp, ?_, by simpa using regLookup_erase reg mid⟩
  cases latestMeetingFor db md.leadId with
  | none => simp
  | some em => cases em.calendarEventId <;> simp

/-- Witness for C3 (amended): the concrete ingredients of `c3Run`. -/
theorem c3_witness :
    (processTimeApproval 100 none "m1" 0 c3Reg dbSeven).db = dbSeven ∧
    Out.managerMsg calendarFailText ∈ (processTimeApproval 100 none "m1" 0 c3Reg dbSeven).out ∧
    regLookup (processTimeApproval 100 none "m1" 0 c3Reg dbSeven).reg "m1" = none :=
  c3_calendar_failure_amended 100 "m1" 0 c3Reg dbSeven
    { leadId := 7, matchingSlots := [{ display := "slot", proposedTime := 700 }] }
    leadSeven (by decide) (by decide) (by decide)

/-! ## Claim C6 -/

/-- Usage state whose last resets happened at 10:30 on day 0 (minute
630). -/
def c6Usage : UsageData :=
  { dailyCount := 3, hourlyCount := 5, lastReset := 630, hourlyReset := 630, totalSent := 9 }

/-- Counterexample to C6: the claim says the hourly counter resets exactly
when the wall-clock hour has rolled over.  Between minute 630 (10:30) and
minute 660 (11:00) the wall-clock hour rolls from 10 to 11 (same date),
yet `_reset_counters_if_needed` leaves the hourly counter at 5, because
its hourly condition is the fixed interval `now >= hourly_reset + 1h`. -/
theorem c6_counterexample_hour_rollover_without_reset :
    hourIndexOf c6Usage.hourlyReset < hourIndexOf 660 ∧
    dateOf c6Usage.lastReset = dateOf 660 ∧
    (resetCountersIfNeeded 660 c6Usage).hourlyCount = 5 ∧
    (resetCountersIfNeeded 660 c6Usage).hourlyReset = 630 := by
  decide

/-- C6 (amended): on every access the daily counter is zero afterwards
exactly when it already was zero or the wall-clock date rolled over since
the last daily reset; the hourly counter is zero afterwards exactly when
it already was zero or at least one hour has elapsed since the previous
hourly reset — a fixed interval, which implies (but is not implied by) a
wall-clock hour rollover. -/
theorem c6_reset_boundaries_amended (now : Nat) (u : UsageData) :
    ((resetCountersIfNeeded now u).dailyCount = 0 ↔
      (u.dailyCount = 0 ∨ dateOf u.lastReset < dateOf now)) ∧
    ((resetCountersIfNeeded now u).hourlyCount = 0 ↔
      (u.hourlyCount = 0 ∨ u.hourlyReset + minutesPerHour ≤ now)) ∧
    (u.hourlyReset + minutesPerHour ≤ now →
      hourIndexOf u.hourlyReset < hourIndexOf now) := by
  refine ⟨?_, ?_, ?_⟩
  · unfold resetCountersIfNeeded
    by_cases hd : dateOf u.lastReset < dateOf now <;>
      by_cases hh : u.hourlyReset + minutesPerHour ≤ now <;>
        simp [hd, hh]
  · unfold resetCountersIfNeeded
    by_cases hd : dateOf u.lastReset < dateOf now <;>
      by_cases hh : u.hourlyReset + minutesPerHour ≤ now <;>
        simp [hd, hh]
  · intro h
    have h1 : u.hourlyReset / minutesPerHour + 1 ≤ now / minutesPerHour := by
      have h2 : (u.hourlyReset + minutesPerHour) / minutesPerHour ≤ now / minutesPerHour :=
        Nat.div_le_div_right h
      rwa [Nat.add_div_right _ (by norm_num [minutesPerHour])] at h2
    exact Nat.lt_of_lt_of_le (Nat.lt_succ_self _) h1

/-- Witness for C6 (amended): at minute 690 a full hour has elapsed since
the hourly reset at 630, so the counter is cleared and the wall-clock
hour index indeed advanced. -/
theorem c6_witness :
    ((resetCountersIfNeeded 690 c6Usage).hourlyCount = 0 ↔
      (c6Usage.hourlyCount = 0 ∨ c6Usage.hourlyReset + minutesPerHour ≤ 690)) ∧
    hourIndexOf c6Usage.hourlyReset < hourIndexOf 690 :=
  ⟨(c6_reset_boundaries_amended 690 c6Usage).2.1,
   (c6_reset_boundaries_amended 690 c6Usage).2.2 (by decide)⟩

/-! ## Claim C7 -/

/-- A lead whose meeting was already scheduled. -/
def c7Lead : LeadRow := { id := 8, status := .MEETING_SCHEDULED }

/-- The store for the C7 run: lead 8 with a confirmed meeting. -/
def c7Db : DB :=
  { leads := [c7Lead]
    meetings := [{ id := 1, leadId := 8, scheduledTime := 500,
                   status := "confirmed", createdAt := 10 }]
    nextMeetingId := 2 }

/-- The C7 run: lead 8 (status `MEETING_SCHEDULED`, meeting confirmed)
replies "thanks" — a message no negotiation consumes, with a neutral,
non-meeting intent — so `process_lead_response` reaches the intent-driven
status update. -/
def c7Run : ProcResult :=
  processLeadResponse 100 c7Lead "thanks" .whatsapp {} none [] []
    "ask" "reply" "summary" [] c7Db

/-- Counterexample to C7: the claim says every operation changes a lead's
status only along the §4.1 edges.  `_update_lead_status_from_intent`
assigns the intent-mapped status without consulting the current one, so
the run `c7Run` moves lead 8 from `MEETING_SCHEDULED` to `RESPONDED`, an
edge §4.1 does not list. -/
theorem c7_counterexample_unlisted_status_edge :
    c7Lead.status = .MEETING_SCHEDULED ∧
    (findLead c7Run.db 8).map LeadRow.status = some .RESPONDED ∧
    specAllowsEdge .MEETING_SCHEDULED .RESPONDED = false := by
  decide

/-- C7 (amended): the intent-driven update assigns the status determined
by the intent priority chain (negative sentiment, then meeting request,
then interest, then plain response) regardless of the lead's current
status — so unlisted edges such as `MEETING_SCHEDULED → RESPONDED` occur —
while the follow-up sweep indeed selects only leads in `CONTACTED` or
`FOLLOW_UP`. -/
theorem c7_amended_intent_overrides_status (lead : LeadRow) (i : Intent)
    (db : DB) (now : Nat) (l : LeadRow)
    (hl : l ∈ leadsForFollowup db now) :
    (updateLeadStatusFromIntent lead i).status = intentTargetStatus i ∧
    (intentTargetStatus i = .NOT_INTERESTED ∨
     intentTargetStatus i = .MEETING_REQUESTED ∨
     intentTargetStatus i = .INTERESTED ∨
     intentTargetStatus i = .RESPONDED) ∧
    (l.status = .CONTACTED ∨ l.status = .FOLLOW_UP) := by
  refine ⟨?_, ?_, ?_⟩
  · unfold updateLeadStatusFromIntent intentTargetStatus
    split_ifs <;> rfl
  · unfold intentTargetStatus
    split_ifs <;> simp
  · have hm := List.mem_filter.mp hl
    have hb := hm.2
    simp only [Bool.and_eq_true, Bool.or_eq_true, decide_eq_true_eq] at hb
    exact hb.2

/-- A lead due for follow-up. -/
def c7FollowLead : LeadRow :=
  { id := 9, status := .CONTACTED, nextFollowUpDate := some 50 }

/-- A store holding only `c7FollowLead`. -/
def c7FollowDb : DB := { leads := [c7FollowLead] }

/-- Witness for C7 (amended): a neutral intent on any lead, and the
follow-up sweep of `c7FollowDb`. -/
theorem c7_witness :
    (updateLeadStatusFromIntent c7Lead {}).status = intentTargetStatus {} ∧
    (intentTargetStatus {} = .NOT_INTERESTED ∨
     intentTargetStatus {} = .MEETING_REQUESTED ∨
     intentTargetStatus {} = .INTERESTED ∨
     intentTargetStatus {} = .RESPONDED) ∧
    (c7FollowLead.status = .CONTACTED ∨ c7FollowLead.status = .FOLLOW_UP) :=
  c7_amended_intent_overrides_status c7Lead {} c7FollowDb 100 c7FollowLead
    (by decide)

/-! ## Claim C8 -/

/-- Reduction of the confirmation reply "yes" through strip, lowercase and
the selection cascade. -/
theorem selYes : selectionIndexOf (strCleanLower "yes") = some 0 := by decide

/-- Appending a conversation row leaves the meeting query unchanged. -/
theorem latestMeetingFor_addConv (db : DB) (c : ConvRow) (i : Nat) :
    latestMeetingFor (addConv db c) i = latestMeetingFor db i := rfl

/-- Merging a lead row leaves the meeting query unchanged. -/
theorem latestMeetingFor_mergeLead (db : DB) (l : LeadRow) (i : Nat) :
    latestMeetingFor (mergeLead db l) i = latestMeetingFor db i := by
  unfold latestMeetingFor
  rw [meetings_mergeLead]

/-- Appending a conversation row leaves the lead query unchanged. -/
theorem findLead_addConv (db : DB) (c : ConvRow) (i : Nat) :
    findLead (addConv db c) i = findLead db i := rfl

/-- Inserting a meeting row leaves the lead query unchanged. -/
theorem findLead_insertMeeting (db : DB) (now : Nat) (m : MeetingRow) (i : Nat) :
    findLead (insertMeeting db now m) i = findLead db i := rfl

/-- The meeting list after an insert. -/
theorem meetings_insertMeeting (db : DB) (now : Nat) (m : MeetingRow) :
    (insertMeeting db now m).meetings =
      db.meetings ++ [{ m with id := db.nextMeetingId, createdAt := now }] := rfl

/-- The in-range booking branch of `_handle_lead_time_selection` for a
"yes" reply against a single stored time, fully evaluated. -/
theorem handleSel_yes (now eid : Nat) (lead : LeadRow) (channel : Channel)
    (reg : Registry) (db1 : DB) (mid : String) (md : PendingMeeting) (t : Nat)
    (hfind : findPendingSelection reg lead.id = some (mid, md))
    (htimes : md.suggestedParsedTimes = [t])
    (hmeet1 : latestMeetingFor db1 lead.id = none)
    (hch : hasChannelHandler channel = true) :
    handleLeadTimeSelection now (some eid) lead "yes" channel reg db1 =
      (true, regErase reg mid,
       addConv
         (setLead
           (insertMeeting db1 now
             { leadId := lead.id, scheduledTime := t, durationMinutes := 30
               calendarEventId := some eid, status := "confirmed", createdAt := now })
           { lead with status := .MEETING_SCHEDULED })
         { leadId := lead.id, channel := channel, direction := "outbound"
           content := selectionConfirmText, timestamp := now },
       [.calCreate t, .leadMsg lead.id channel selectionConfirmText,
        .managerMsg leadSelectedText]) := by
  unfold handleLeadTimeSelection
  rw [selYes, hfind]
  simp only [htimes, List.length_singleton, Nat.lt_irrefl, zero_lt_one, dif_pos,
    List.get, createOrUpdateMeeting, hmeet1, hch, if_pos]
  simp [htimes]

/-- C8: when a negotiation for the lead is awaiting the lead's selection
with one stored parsed time and the lead's inbound message is "yes", the
selection is consumed before the general intent classifier (the `Intent`
argument `i` is arbitrary and absent from every conclusion): the booking
runs as in the Approve-slot path via the spec-modelled
`createOrUpdateMeeting` — afterwards the negotiation id resolves to
nothing, the lead is `MEETING_SCHEDULED`, exactly one active meeting
exists, a confirmed meeting row carries the stored time and the calendar
event id, the confirmation is sent to the lead and the approver is
notified.  The final conjunct is the out-of-range side: a recognized
index not within the stored list makes the handler report "not a
selection" with nothing changed, so `process_lead_response` falls through
to general intent handling. -/
theorem c8_lead_selection_flow (now t eid : Nat) (lead : LeadRow)
    (channel : Channel) (i : Intent)
    (parseSlots : List AvailSlot) (matching : List MatchSlot)
    (askText replyText summary : String) (mid : String) (md : PendingMeeting)
    (reg : Registry) (db : DB)
    (hfind : findPendingSelection reg lead.id = some (mid, md))
    (htimes : md.suggestedParsedTimes = [t])
    (hmeet : latestMeetingFor db lead.id = none)
    (hch : hasChannelHandler channel = true) :
    regLookup (processLeadResponse now lead "yes" channel i (some eid) parseSlots
        matching askText replyText summary reg db).reg mid = none ∧
    findLead (processLeadResponse now lead "yes" channel i (some eid) parseSlots
        matching askText replyText summary reg db).db lead.id =
      some { lead with status := .MEETING_SCHEDULED } ∧
    activeMeetingCount (processLeadResponse now lead "yes" channel i (some eid)
        parseSlots matching askText replyText summary reg db).db lead.id = 1 ∧
    ((processLeadResponse now lead "yes" channel i (some eid) parseSlots
        matching askText replyText summary reg db).db.meetings.any (fun m =>
      m.leadId = lead.id && m.scheduledTime = t && m.status = "confirmed" &&
      m.calendarEventId = some eid) = true) ∧
    (processLeadResponse now lead "yes" channel i (some eid) parseSlots matching
        askText replyText summary reg db).out =
      [Out.calCreate t, Out.leadMsg lead.id channel selectionConfirmText,
       Out.managerMsg leadSelectedText] ∧
    (∀ (n2 : Nat) (cal2 : Option Nat) (lead2 : LeadRow) (msg2 : String)
        (ch2 : Channel) (reg2 : Registry) (db2 : DB) (mid2 : String)
        (md2 : PendingMeeting) (idx2 : Nat),
      selectionIndexOf (strCleanLower msg2) = some idx2 →
      findPendingSelection reg2 lead2.id = some (mid2, md2) →
      md2.suggestedParsedTimes.length ≤ idx2 →
      handleLeadTimeSelection n2 cal2 lead2 msg2 ch2 reg2 db2 =
        (false, reg2, db2, [])) := by
  have hmeet1 : latestMeetingFor
      (addConv (mergeLead db lead)
        { leadId := lead.id, channel := channel, direction := "inbound"
          content := "yes", timestamp := now }) lead.id = none := by
    rw [latestMeetingFor_addConv, latestMeetingFor_mergeLead]
    exact hmeet
  have key : processLeadResponse now lead "yes" channel i (some eid) parseSlots
      matching askText replyText summary reg db =
      ⟨regErase reg mid,
       addConv
         (setLead
           (insertMeeting
             (addConv (mergeLead db lead)
               { leadId := lead.id, channel := channel, direction := "inbound"
                 content := "yes", timestamp := now }) now
             { leadId := lead.id, scheduledTime := t, durationMinutes := 30
               calendarEventId := some eid, status := "confirmed", createdAt := now })
           { lead with status := .MEETING_SCHEDULED })
         { leadId := lead.id, channel := channel, direction := "outbound"
           content := selectionConfirmText, timestamp := now },
       [.calCreate t, .leadMsg lead.id channel selectionConfirmText,
        .managerMsg leadSelectedText]⟩ := by
    unfold processLeadResponse
    simp only [findLead_mergeLead_self, Option.getD_some]
    rw [handleSel_yes now eid lead channel reg _ mid md t hfind htimes hmeet1 hch]
    rfl
  rw [key]
  refine ⟨regLookup_erase reg mid, ?_, ?_, ?_, rfl, ?_⟩
  · rw [findLead_addConv]
    refine findLead_setLead_self _ lead.id _ rfl ?_
    rw [findLead_insertMeeting, findLead_addConv, findLead_mergeLead_self]
    rfl
  · unfold activeMeetingCount
    show (List.filter _ ((addConv (mergeLead db lead) _).meetings ++ _)).length = 1
    rw [meetings_addConv, meetings_mergeLead, List.filter_append]
    have hnil : db.meetings.filter (fun m => decide (m.leadId = lead.id)) = [] :=
      latestOf_eq_none hmeet
    rw [filter_and_empty _ _ _ hnil]
    simp
  · show (List.any (_ ++ _) _) = true
    rw [List.any_append]
    simp
  · intro n2 cal2 lead2 msg2 ch2 reg2 db2 mid2 md2 idx2 hs hf hle
    unfold handleLeadTimeSelection
    simp only [hs, hf]
    rw [dif_neg (Nat.not_lt.mpr hle)]

/-- The negotiation entry for the C8 witness: lead 7 awaiting selection
with one stored parsed time. -/
def c8Md : PendingMeeting :=
  { leadId := 7, awaitingLeadSelection := true, suggestedParsedTimes := [900] }

/-- Registry holding only `c8Md`. -/
def c8Reg : Registry := [("m1", c8Md)]

/-- Store holding lead 7 and no meetings. -/
def c8Db : DB := { leads := [leadSeven] }

/-- Witness for C8: lead 7 replies "yes" against one stored option, and
the out-of-range side at the reply "2" against the single stored option. -/
theorem c8_witness :
    regLookup (processLeadResponse 100 leadSeven "yes" .whatsapp {} (some 55)
        [] [] "a" "r" "s" c8Reg c8Db).reg "m1" = none ∧
    findLead (processLeadResponse 100 leadSeven "yes" .whatsapp {} (some 55)
        [] [] "a" "r" "s" c8Reg c8Db).db leadSeven.id =
      some { leadSeven with status := .MEETING_SCHEDULED } ∧
    activeMeetingCount (processLeadResponse 100 leadSeven "yes" .whatsapp {}
        (some 55) [] [] "a" "r" "s" c8Reg c8Db).db leadSeven.id = 1 ∧
    ((processLeadResponse 100 leadSeven "yes" .whatsapp {} (some 55)
        [] [] "a" "r" "s" c8Reg c8Db).db.meetings.any (fun m =>
      m.leadId = leadSeven.id && m.scheduledTime = 900 && m.status = "confirmed" &&
      m.calendarEventId = some 55) = true) ∧
    (processLeadResponse 100 leadSeven "yes" .whatsapp {} (some 55)
        [] [] "a" "r" "s" c8Reg c8Db).out =
      [Out.calCreate 900, Out.leadMsg leadSeven.id .whatsapp selectionConfirmText,
       Out.managerMsg leadSelectedText] ∧
    handleLeadTimeSelection 100 none leadSeven "2" .whatsapp c8Reg c8Db =
      (false, c8Reg, c8Db, []) := by
  have h := c8_lead_selection_flow 100 900 55 leadSeven .whatsapp {} [] []
    "a" "r" "s" "m1" c8Md c8Reg c8Db (by decide) rfl (by decide) (by decide)
  exact ⟨h.1, h.2.1, h.2.2.1, h.2.2.2.1, h.2.2.2.2.1,
    h.2.2.2.2.2 100 none leadSeven "2" .whatsapp c8Reg c8Db "m1" c8Md 1
      (by decide) (by decide) (by decide)⟩

/-! ## Claim C10 -/

/-- C10: first, every reply of the confirmation family maps to selection
index 0; second, with at least two stored options a confirmation reply
("sure") books the first stored option — the inserted confirmed meeting
carries `t0`; third, a message outside the recognized
numeric/word/confirmation vocabulary makes the handler return `false`
with the registry, the store (leads, meetings and conversations alike)
and the effect trace untouched. -/
theorem c10_selection_vocabulary :
    (∀ w ∈ yesWords, selectionIndexOf w = some 0) ∧
    (∀ (now eid : Nat) (lead : LeadRow) (ch : Channel) (reg : Registry) (db : DB)
        (mid : String) (md : PendingMeeting) (t0 t1 : Nat) (rest : List Nat),
      findPendingSelection reg lead.id = some (mid, md) →
      md.suggestedParsedTimes = t0 :: t1 :: rest →
      latestMeetingFor db lead.id = none →
      ((handleLeadTimeSelection now (some eid) lead "sure" ch reg db).2.2.1.meetings.any
        (fun m => m.leadId = lead.id && m.scheduledTime = t0 &&
          m.status = "confirmed") = true)) ∧
    (∀ (now : Nat) (cal : Option Nat) (lead : LeadRow) (msg : String) (ch : Channel)
        (reg : Registry) (db : DB),
      numberWords.contains (strCleanLower msg) = false →
      yesWords.contains (strCleanLower msg) = false →
      handleLeadTimeSelection now cal lead msg ch reg db = (false, reg, db, [])) := by
  refine ⟨by decide, ?_, ?_⟩
  · intro now eid lead ch reg db mid md t0 t1 rest hf ht hm
    have hsure : selectionIndexOf (strCleanLower "sure") = some 0 := by decide
    unfold handleLeadTimeSelection
    simp only [hsure, hf]
    rw [dif_pos (by simp [ht])]
    simp only [createOrUpdateMeeting, hm, ht]
    cases hch : hasChannelHandler ch <;>
      simp [hch, meetings_addConv, meetings_setLead, meetings_insertMeeting,
        List.any_append, ht]
  · intro now cal lead msg ch reg db h1 h2
    have h1a : ¬ (strCleanLower msg ∈ numberWords) := by simpa using h1
    have h2a : ¬ (strCleanLower msg ∈ yesWords) := by simpa using h2
    have hn : selectionIndexOf (strCleanLower msg) = none := by
      unfold selectionIndexOf
      simp [h1a, h2a]
    unfold handleLeadTimeSelection
    rw [hn]

/-- The negotiation entry for the C10 witness: two stored options. -/
def c10Md : PendingMeeting :=
  { leadId := 7, awaitingLeadSelection := true, suggestedParsedTimes := [900, 1000] }

/-- Registry holding only `c10Md`. -/
def c10Reg : Registry := [("m2", c10Md)]

/-- Witness for C10: "sure" books the first of the two stored options for
lead 7, and the unrecognized reply "hello" changes nothing. -/
theorem c10_witness :
    selectionIndexOf "okay" = some 0 ∧
    ((handleLeadTimeSelection 100 (some 55) leadSeven "sure" .whatsapp c10Reg
        c8Db).2.2.1.meetings.any (fun m =>
      m.leadId = leadSeven.id && m.scheduledTime = 900 &&
        m.status = "confirmed") = true) ∧
    handleLeadTimeSelection 100 none leadSeven "hello" .whatsapp c10Reg c8Db =
      (false, c10Reg, c8Db, []) :=
  ⟨c10_selection_vocabulary.1 "okay" (by decide),
   c10_selection_vocabulary.2.1 100 55 leadSeven .whatsapp c10Reg c8Db "m2"
     c10Md 900 1000 [] (by decide) rfl (by decide),
   c10_selection_vocabulary.2.2 100 none leadSeven "hello" .whatsapp c10Reg c8Db
     (by decide) (by decide)⟩
